import Mathlib

/-!
Verification of the kakashi performance-test orchestration pipeline
(`performance_tests/run_tests.py` and `performance_tests/generate_summary.py`).

The subprocess layer is abstracted: the outcome of spawning one external
command (normal completion with an exit code, a timeout, or a spawn failure)
is a value of `CmdOutcome`, and `run_command` translates it into the result
dictionary exactly as the Python code does.  Durations and rates are modelled
over `ℚ`.  Fields of the Python result dictionaries become structure fields
with the same names; fields whose values come from the ambient environment
(`timestamp`, `python_version`, `platform`) are not part of any claim and are
omitted from the embedded record.
-/

/-- The result dictionary built by `run_command` in `run_tests.py`
(keys `success`, `returncode`, `stdout`, `stderr`, `duration`,
`description`). -/
structure ExecutionResult where
  success : Bool
  returncode : Int
  stdout : String
  stderr : String
  duration : ℚ
  description : String
deriving DecidableEq

/-- Outcome of one `subprocess.run` invocation: normal completion (with the
child's exit code, captured streams and elapsed wall time), expiry of the
300-second timeout (`subprocess.TimeoutExpired`), or any other exception while
spawning/running (`except Exception`), carrying its message text. -/
inductive CmdOutcome where
  | completed (returncode : Int) (stdout stderr : String) (duration : ℚ)
  | timedOut
  | spawnError (message : String)
deriving DecidableEq

/-- `run_command` from `run_tests.py` lines 21-61.  The Python function runs
the subprocess with a hard-coded `timeout=300`; here the subprocess's
behaviour is the `outcome` argument and the three `return` branches are
translated verbatim. -/
def run_command (cmd : List String) (description : String) (outcome : CmdOutcome) : ExecutionResult :=
  match outcome with
  | .completed rc out err dur =>
      { success := rc == 0
        returncode := rc
        stdout := out
        stderr := err
        duration := dur
        description := description }
  | .timedOut =>
      { success := false
        returncode := -1
        stdout := ""
        stderr := "Command timed out after 300 seconds"
        duration := 300
        description := description }
  | .spawnError msg =>
      { success := false
        returncode := -1
        stdout := ""
        stderr := msg
        duration := 0
        description := description }

/-- The three test suites of the catalog (`run_tests.py`). -/
inductive Suite where
  | api
  | performance
  | stability
deriving DecidableEq

/-- `run_api_tests` from `run_tests.py` lines 84-93.  `pythonExe` stands for
`sys.executable`. -/
def run_api_tests (pythonExe : String) (o : CmdOutcome) : ExecutionResult :=
  run_command [pythonExe, "-m", "pytest", "test_api_compatibility.py", "-v", "--tb=short"]
    "API Compatibility Tests" o

/-- `run_performance_tests` from `run_tests.py` lines 95-104. -/
def run_performance_tests (pythonExe : String) (o : CmdOutcome) : ExecutionResult :=
  run_command [pythonExe, "-m", "pytest", "test_performance.py", "-v", "--benchmark-only", "--benchmark-sort=mean"]
    "Performance Benchmark Tests" o

/-- `run_stability_tests` from `run_tests.py` lines 106-115. -/
def run_stability_tests (pythonExe : String) (o : CmdOutcome) : ExecutionResult :=
  run_command [pythonExe, "-m", "pytest", "test_stability.py", "-v", "--tb=short"]
    "Stability Tests" o

/-- Suite selection resolved from the mutually exclusive CLI flags of `main`:
`--api-only`, `--performance-only`, `--stability-only`, or none of them
(run all suites). -/
inductive Selection where
  | apiOnly
  | performanceOnly
  | stabilityOnly
  | all
deriving DecidableEq

/-- The `results` list built by the `if args.api_only / elif ... / else`
chain of `main` (`run_tests.py` lines 218-230): sequential `append`s, one per
selected suite, in catalog order.  `outcomes` gives each suite's subprocess
outcome. -/
def collectResults (pythonExe : String) (sel : Selection) (outcomes : Suite → CmdOutcome) :
    List ExecutionResult :=
  match sel with
  | .apiOnly => [run_api_tests pythonExe (outcomes .api)]
  | .performanceOnly => [run_performance_tests pythonExe (outcomes .performance)]
  | .stabilityOnly => [run_stability_tests pythonExe (outcomes .stability)]
  | .all =>
      [run_api_tests pythonExe (outcomes .api),
       run_performance_tests pythonExe (outcomes .performance),
       run_stability_tests pythonExe (outcomes .stability)]

/-- The `summary` sub-dictionary built by `generate_report`
(`run_tests.py` lines 136-143). -/
structure ReportSummary where
  total_tests : Nat
  successful_tests : Nat
  failed_tests : Nat
  success_rate : ℚ
  total_duration : ℚ
deriving DecidableEq

/-- The report dictionary built by `generate_report` (`run_tests.py`
lines 128-150); the environment fields (`timestamp`, `python_version`,
`platform`) are omitted. -/
structure Report where
  summary : ReportSummary
  results : List ExecutionResult
deriving DecidableEq

/-- `generate_report` from `run_tests.py` lines 128-150. -/
def generate_report (results : List ExecutionResult) : Report :=
  let total_tests := results.length
  let successful_tests := (results.filter (fun r => r.success)).length
  let failed_tests := total_tests - successful_tests
  let total_duration := (results.map (fun r => r.duration)).sum
  { summary :=
      { total_tests := total_tests
        successful_tests := successful_tests
        failed_tests := failed_tests
        success_rate := if total_tests > 0 then (successful_tests : ℚ) / (total_tests : ℚ) * 100 else 0
        total_duration := total_duration }
    results := results }

/-- How the `try` block of `main` (`run_tests.py` lines 218-248) ends: either
every selected suite ran to completion (with the given per-suite outcomes), or
a `KeyboardInterrupt` arrived after some prefix of results had been
collected. -/
inductive RunOutcome where
  | completed (outcomes : Suite → CmdOutcome)
  | interrupted (collected : List ExecutionResult)

/-- `main` from `run_tests.py` lines 196-251, restricted to what it produces:
the process exit status and the report written by `save_report` (when
`--save-report` was given).  On completion the exit status is 1 when
`failed_tests > 0` and 0 otherwise; on `KeyboardInterrupt` the handler prints
a message and calls `sys.exit(130)` without ever reaching `generate_report`,
so no report is produced. -/
def main_run (pythonExe : String) (sel : Selection) (saveFlag : Bool) (run : RunOutcome) :
    Nat × Option Report :=
  match run with
  | .completed outcomes =>
      let results := collectResults pythonExe sel outcomes
      let report := generate_report results
      (if report.summary.failed_tests > 0 then 1 else 0,
       if saveFlag then some report else none)
  | .interrupted _ => (130, none)

/-- Decides whether `pat` is a prefix of the second list (character lists of
filenames). -/
def isPrefixList : List Char → List Char → Bool
  | [], _ => true
  | _ :: _, [] => false
  | a :: as, b :: bs => a == b && isPrefixList as bs

/-- Decides whether `pat` occurs as a contiguous substring, as Python's
`pat in s` does on strings. -/
def containsSub (pat : List Char) : List Char → Bool
  | [] => pat.isEmpty
  | c :: rest => isPrefixList pat (c :: rest) || containsSub pat rest

/-- Replaces every non-overlapping occurrence of `pat` by `rep`, scanning left
to right, as Python's `s.replace(pat, rep)` does for a nonempty `pat`.  The
fuel argument (instantiated with the length of the string) keeps the
recursion structural. -/
def replaceAllF (pat rep : List Char) : Nat → List Char → List Char
  | 0, s => s
  | _ + 1, [] => []
  | fuel + 1, c :: rest =>
      if pat.isEmpty then c :: rest
      else if isPrefixList pat (c :: rest) then
        rep ++ replaceAllF pat rep fuel (rest.drop (pat.length - 1))
      else
        c :: replaceAllF pat rep fuel rest

/-- Python's `pat in s` on strings. -/
def strContains (s pat : String) : Bool :=
  containsSub pat.data s.data

/-- Python's `s.replace(pat, rep)` for a nonempty `pat`. -/
def strReplaceAll (s pat rep : String) : String :=
  ⟨replaceAllF pat.data rep.data s.data.length s.data⟩

/-- The version string extracted by `load_test_results`
(`generate_summary.py` line 37):
`filename.replace('test-report-', '').replace('.json', '')`. -/
def extract_version (filename : String) : String :=
  strReplaceAll (strReplaceAll filename "test-report-" "") ".json" ""

/-- The `summary` sub-object of a loaded JSON report as the aggregation code
reads it: every key access goes through `.get` with a default, so each field
is optional (`generate_summary.py` lines 60, 106, 109-111, 124-128). -/
structure SummaryData where
  failed_tests : Option Int
  total_tests : Option Int
  successful_tests : Option Int
  total_duration : Option ℚ
deriving DecidableEq

/-- A loaded JSON report document, restricted to the fields the aggregation
reads through `.get`: the `summary` key may be absent. -/
structure ReportData where
  summary : Option SummaryData
deriving DecidableEq

/-- `data.get("summary", {}).get("failed_tests", 0)` as evaluated at
`generate_summary.py` lines 60, 106 and 124: a missing `summary` key or a
missing `failed_tests` key defaults to 0. -/
def reportFailedTests (d : ReportData) : Int :=
  match d.summary with
  | none => 0
  | some s => s.failed_tests.getD 0

/-- State threaded through the loading loop of `load_test_results`: the
`results` dictionary (an association list with last-write-wins update, as a
Python dict) and the `Warning: Could not load ...` messages printed so far,
identified by the offending filename. -/
structure LoadState where
  results : List (String × ReportData)
  warnings : List String
deriving DecidableEq

/-- Dictionary assignment `results[k] = v`: overwrites an existing binding in
place, otherwise appends. -/
def insertA (k : String) (v : ReportData) : List (String × ReportData) → List (String × ReportData)
  | [] => [(k, v)]
  | (k', v') :: rest => if k' == k then (k, v) :: rest else (k', v') :: insertA k v rest

/-- One iteration of the `for json_file in json_files` loop of
`load_test_results` (`generate_summary.py` lines 29-41).  A file is a pair of
its basename and the outcome of `json.load` (`none` when opening or parsing
raised, which the `except` branch turns into a warning).  When parsing
succeeded, the entry is added only if `'test-report-' in filename`, keyed by
`python_` plus the extracted version; otherwise the file is skipped with no
warning. -/
def loadStep (st : LoadState) (file : String × Option ReportData) : LoadState :=
  match file.2 with
  | none => { st with warnings := st.warnings ++ [file.1] }
  | some d =>
      if strContains file.1 "test-report-" then
        { st with results := insertA ("python_" ++ extract_version file.1) d st.results }
      else
        st

/-- `load_test_results` from `generate_summary.py` lines 18-43, over the list
of discovered JSON files (basename, parse outcome) in discovery order. -/
def load_test_results (files : List (String × Option ReportData)) : LoadState :=
  files.foldl loadStep ⟨[], []⟩

/-- The analysis dictionary built by `analyze_performance_results`
(`generate_summary.py` lines 45-65); the three empty metric
sub-dictionaries, which are never filled, are omitted. -/
structure Analysis where
  total_runs : Nat
  successful_runs : Nat
  failed_runs : Nat
  python_versions : List String
deriving DecidableEq

/-- `analyze_performance_results` from `generate_summary.py` lines 45-65:
a run counts as successful iff `data.get("summary", {}).get("failed_tests", 0)
== 0`, otherwise as failed. -/
def analyze_performance_results (results : List (String × ReportData)) : Analysis :=
  { total_runs := results.length
    successful_runs := (results.filter (fun p => reportFailedTests p.2 == 0)).length
    failed_runs := (results.filter (fun p => !(reportFailedTests p.2 == 0))).length
    python_versions := results.map (fun p => p.1) }

/-- The per-version status string computed inside `generate_markdown_report`
(`generate_summary.py` lines 106 and 124):
`"✅ PASS" if summary.get("failed_tests", 0) == 0 else "❌ FAIL"` where
`summary = data.get("summary", {})`. -/
def markdown_version_status (d : ReportData) : String :=
  if reportFailedTests d == 0 then "✅ PASS" else "❌ FAIL"

/-- `main` from `generate_summary.py` lines 178-240, restricted to what it
produces: the process exit status and the analysis (when one is computed).
If `load_test_results` returned an empty dictionary, the script prints
`No test results found!` and exits with status 1 before any analysis;
otherwise it analyzes, writes the reports, and exits 0 when
`failed_runs == 0`, else 1. -/
def summarize_main (files : List (String × Option ReportData)) : Nat × Option Analysis :=
  let loaded := (load_test_results files).results
  if loaded.isEmpty then (1, none)
  else
    let analysis := analyze_performance_results loaded
    (if analysis.failed_runs == 0 then 0 else 1, some analysis)

/-- Modelled from the spec: the filename convention `test-report-<label>.json`
named by the spec (section 4.4 and section 6) — a filename matches it iff it
is literally `test-report-`, then a label, then `.json`.  Used only to compare
the spec's wording against the loader's actual substring test. -/
def matchesNamingConvention (filename : String) : Prop :=
  ∃ label : String,
    filename.data = ("test-report-" : String).data ++ label.data ++ (".json" : String).data

/-- A sample successful suite result, used to instantiate hypotheses at
concrete inputs. -/
def sampleOk : ExecutionResult :=
  { success := true
    returncode := 0
    stdout := ""
    stderr := ""
    duration := 1
    description := "API Compatibility Tests" }

/-- A sample assignment of subprocess outcomes in which the performance suite
times out while the other two suites exit 0. -/
def sampleOutcomes : Suite → CmdOutcome
  | .performance => .timedOut
  | _ => .completed 0 "ok" "" 1

/-- An empty loaded report document (no `summary` key). -/
def dEmpty : ReportData := ⟨none⟩

/-- A loaded report whose summary records zero failed tests. -/
def dPass : ReportData := ⟨some ⟨some 0, none, none, none⟩⟩

/-- A loaded report whose summary records two failed tests. -/
def dFail2 : ReportData := ⟨some ⟨some 2, none, none, none⟩⟩

/-- The summary computed by `generate_report`, with the let-bound counts
written out. -/
theorem generate_report_summary_eq (results : List ExecutionResult) :
    (generate_report results).summary =
      { total_tests := results.length
        successful_tests := (results.filter (fun r => r.success)).length
        failed_tests := results.length - (results.filter (fun r => r.success)).length
        success_rate :=
          if results.length > 0 then
            ((results.filter (fun r => r.success)).length : ℚ) / (results.length : ℚ) * 100
          else 0
        total_duration := (results.map (fun r => r.duration)).sum } := rfl

/-- Splitting a list by a Boolean predicate partitions its length. -/
theorem filter_length_partition {α : Type} (p : α → Bool) (l : List α) :
    l.length = (l.filter p).length + (l.filter (fun a => !(p a))).length := by
  induction l with
  | nil => rfl
  | cons a t ih =>
      by_cases h : p a <;> simp [List.filter_cons, h, ih] <;> omega

/-- C1 counterexample: one successful result gives `total = 1`,
`succeeded = 1`, but the stored `success_rate` is `100`, not
`succeeded / total = 1`, so the rate is not `succeeded / total`. -/
theorem C1_counterexample :
    (generate_report [sampleOk]).summary.total_tests = 1 ∧
    (generate_report [sampleOk]).summary.successful_tests = 1 ∧
    (generate_report [sampleOk]).summary.success_rate ≠
      ((generate_report [sampleOk]).summary.successful_tests : ℚ) /
        ((generate_report [sampleOk]).summary.total_tests : ℚ) := by
  refine ⟨rfl, rfl, ?_⟩
  rw [generate_report_summary_eq]
  norm_num [sampleOk]

/-- C1 (amended): `success_rate` equals `succeeded / total * 100` (a
percentage) when `total > 0`, and exactly `0` when `total == 0`. -/
theorem C1_success_rate (results : List ExecutionResult) :
    ((generate_report results).summary.total_tests > 0 →
      (generate_report results).summary.success_rate =
        ((generate_report results).summary.successful_tests : ℚ) /
          ((generate_report results).summary.total_tests : ℚ) * 100) ∧
    ((generate_report results).summary.total_tests = 0 →
      (generate_report results).summary.success_rate = 0) := by
  rw [generate_report_summary_eq]
  constructor
  · intro h
    have h' : 0 < results.length := h
    rw [if_pos h']
  · intro h
    have h' : results.length = 0 := h
    rw [if_neg (by omega)]

/-- C1 witness: the amended statement evaluated at one successful result
(total 1, rate 100) and at the empty sequence (total 0, rate 0). -/
theorem C1_success_rate_witness :
    ((generate_report [sampleOk]).summary.total_tests > 0 ∧
      (generate_report [sampleOk]).summary.success_rate =
        ((generate_report [sampleOk]).summary.successful_tests : ℚ) /
          ((generate_report [sampleOk]).summary.total_tests : ℚ) * 100) ∧
    ((generate_report ([] : List ExecutionResult)).summary.total_tests = 0 ∧
      (generate_report ([] : List ExecutionResult)).summary.success_rate = 0) :=
  ⟨⟨by decide, (C1_success_rate [sampleOk]).1 (by decide)⟩,
   ⟨by decide, (C1_success_rate []).2 (by decide)⟩⟩

/-- C2: with selection ALL, the orchestrator collects exactly three results,
one per suite, in the order API, performance, stability, each determined
solely by its own suite's outcome; in particular if the performance suite
fails the other two statuses are unaffected. -/
theorem C2_all_suites_run (pythonExe : String) (outcomes : Suite → CmdOutcome) :
    (collectResults pythonExe .all outcomes).length = 3 ∧
    collectResults pythonExe .all outcomes =
      [run_api_tests pythonExe (outcomes .api),
       run_performance_tests pythonExe (outcomes .performance),
       run_stability_tests pythonExe (outcomes .stability)] ∧
    ((run_performance_tests pythonExe (outcomes .performance)).success = false →
      (collectResults pythonExe .all outcomes).map (fun r => r.success) =
        [(run_api_tests pythonExe (outcomes .api)).success, false,
         (run_stability_tests pythonExe (outcomes .stability)).success]) := by
  refine ⟨rfl, rfl, fun h => ?_⟩
  simp [collectResults, h]

/-- C2 witness: with the performance suite timing out and the other suites
exiting 0, the three statuses come out as claimed. -/
theorem C2_all_suites_run_witness :
    (run_performance_tests "python3" (sampleOutcomes .performance)).success = false ∧
    (collectResults "python3" .all sampleOutcomes).map (fun r => r.success) =
      [(run_api_tests "python3" (sampleOutcomes .api)).success, false,
       (run_stability_tests "python3" (sampleOutcomes .stability)).success] :=
  ⟨by decide, (C2_all_suites_run "python3" sampleOutcomes).2.2 (by decide)⟩

/-- C4: on timeout, `run_command` returns a failed result with exit code -1,
duration equal to the 300-second timeout, and a stderr message containing
`timed out after 300 seconds`. -/
theorem C4_timeout_result (cmd : List String) (description : String) :
    (run_command cmd description .timedOut).success = false ∧
    (run_command cmd description .timedOut).returncode = -1 ∧
    (run_command cmd description .timedOut).duration = 300 ∧
    (run_command cmd description .timedOut).stderr = "Command timed out after 300 seconds" ∧
    ∃ pre post,
      (run_command cmd description .timedOut).stderr =
        pre ++ "timed out after 300 seconds" ++ post :=
  ⟨rfl, rfl, rfl, rfl, "Command ", "", rfl⟩

/-- C5: any spawn failure is converted into a failed result with exit code
-1, the error text in stderr and duration 0 — `run_command` is total, so no
error propagates to the caller. -/
theorem C5_spawn_error_result (cmd : List String) (description msg : String) :
    run_command cmd description (.spawnError msg) =
      { success := false
        returncode := -1
        stdout := ""
        stderr := msg
        duration := 0
        description := description } := rfl

/-- C9: the report built from any sequence of results satisfies
`total == len(results)` and `total == succeeded + failed`. -/
theorem C9_total_invariant (results : List ExecutionResult) :
    (generate_report results).summary.total_tests = results.length ∧
    (generate_report results).summary.total_tests =
      (generate_report results).summary.successful_tests +
        (generate_report results).summary.failed_tests := by
  rw [generate_report_summary_eq]
  refine ⟨rfl, ?_⟩
  have h := List.length_filter_le (fun r => r.success) results
  simp only
  omega

/-- Taking as many elements as the left operand's length from an appended
list returns the left operand. -/
theorem take_len_append (l₁ l₂ : List Char) : (l₁ ++ l₂).take l₁.length = l₁ := by
  induction l₁ with
  | nil => simp
  | cons a t ih => simp [ih]

/-- C3 counterexample: the file `old-test-report-3.9.json` does not match the
convention `test-report-<label>.json`, yet the loader adds an entry for it
(keyed `python_old-3.9`) and surfaces no warning — contradicting both the
skip and the warning the claim requires for non-matching files. -/
theorem C3_counterexample :
    ¬ matchesNamingConvention "old-test-report-3.9.json" ∧
    (load_test_results [("old-test-report-3.9.json", some dEmpty)]).results =
      [("python_old-3.9", dEmpty)] ∧
    (load_test_results [("old-test-report-3.9.json", some dEmpty)]).warnings = [] := by
  refine ⟨?_, by decide, by decide⟩
  rintro ⟨label, h⟩
  rw [List.append_assoc] at h
  have h2 := congrArg (List.take ("test-report-" : String).data.length) h
  rw [take_len_append] at h2
  exact absurd h2 (by decide)

/-- C3 (amended): appending a file to the discovered list behaves as the
loader's loop body does — a file that fails to parse adds a warning and no
entry; a parsed file whose basename contains the substring `test-report-`
adds an entry keyed `python_` plus the name with all `test-report-` and
`.json` occurrences removed; a parsed file without the substring is skipped
silently, with no warning. -/
theorem C3_loader_behavior (files : List (String × Option ReportData)) (name : String) :
    ((load_test_results (files ++ [(name, none)])).results =
        (load_test_results files).results ∧
      (load_test_results (files ++ [(name, none)])).warnings =
        (load_test_results files).warnings ++ [name]) ∧
    ∀ d : ReportData,
      (strContains name "test-report-" = true →
        (load_test_results (files ++ [(name, some d)])).results =
          insertA ("python_" ++ extract_version name) d (load_test_results files).results ∧
        (load_test_results (files ++ [(name, some d)])).warnings =
          (load_test_results files).warnings) ∧
      (strContains name "test-report-" = false →
        load_test_results (files ++ [(name, some d)]) = load_test_results files) := by
  have key : ∀ f : String × Option ReportData,
      load_test_results (files ++ [f]) = loadStep (load_test_results files) f := by
    intro f
    simp [load_test_results, List.foldl_append]
  refine ⟨?_, fun d => ⟨fun h => ?_, fun h => ?_⟩⟩
  · rw [key]
    exact ⟨rfl, rfl⟩
  · rw [key]
    simp [loadStep, h]
  · rw [key]
    simp [loadStep, h]

/-- C3 witness: the amended behaviour evaluated on a conforming filename
(entry added under `python_3.11`) and on a plain filename (skipped without
warning). -/
theorem C3_loader_behavior_witness :
    (strContains "test-report-3.11.json" "test-report-" = true ∧
      ((load_test_results ([] ++ [("test-report-3.11.json", some dEmpty)])).results =
          insertA ("python_" ++ extract_version "test-report-3.11.json") dEmpty
            (load_test_results []).results ∧
        (load_test_results ([] ++ [("test-report-3.11.json", some dEmpty)])).warnings =
          (load_test_results []).warnings)) ∧
    (strContains "plain.json" "test-report-" = false ∧
      load_test_results ([] ++ [("plain.json", some dEmpty)]) = load_test_results []) :=
  ⟨⟨by decide, ((C3_loader_behavior [] "test-report-3.11.json").2 dEmpty).1 (by decide)⟩,
   ⟨by decide, ((C3_loader_behavior [] "plain.json").2 dEmpty).2 (by decide)⟩⟩

/-- C6 counterexample: interruption with one collected result and
`--save-report` requested exits 130 but produces no report at all — the
partial results are dropped, not reported with an interruption marker. -/
theorem C6_counterexample :
    (main_run "python3" .all true (.interrupted [sampleOk])).1 = 130 ∧
    (main_run "python3" .all true (.interrupted [sampleOk])).2 = none :=
  ⟨rfl, rfl⟩

/-- C6 (amended): on operator interruption the run exits with status 130
(which no completed run produces, so it is distinct from 0 and 1), and no
report is generated or saved — the collected partial results are discarded. -/
theorem C6_interrupt_exit (pythonExe : String) (sel : Selection) (saveFlag : Bool)
    (collected : List ExecutionResult) :
    main_run pythonExe sel saveFlag (.interrupted collected) = (130, none) ∧
    ∀ outcomes : Suite → CmdOutcome,
      (main_run pythonExe sel saveFlag (.completed outcomes)).1 ≠ 130 := by
  refine ⟨rfl, fun outcomes => ?_⟩
  by_cases h :
      (generate_report (collectResults pythonExe sel outcomes)).summary.failed_tests > 0 <;>
    simp [main_run, h]

/-- C7: when zero reports load successfully, the summarize entry point exits
with status 1 and produces no analysis. -/
theorem C7_empty_input (files : List (String × Option ReportData))
    (h : (load_test_results files).results = []) :
    summarize_main files = (1, none) := by
  simp [summarize_main, h]

/-- C7 witness: a directory containing a single malformed JSON file loads
zero reports and exits 1 without an analysis. -/
theorem C7_empty_input_witness :
    (load_test_results [("test-report-3.11.json", (none : Option ReportData))]).results = [] ∧
    summarize_main [("test-report-3.11.json", (none : Option ReportData))] = (1, none) :=
  ⟨by decide, C7_empty_input _ (by decide)⟩

/-- C8: the analysis counts every loaded report (`total_runs` equals the
number of reports and equals `successful_runs + failed_runs`), a report is
counted as failed iff its failed-tests count is nonzero (otherwise as
passed), and the two-report instance with `failed=0` and `failed=2` yields
totals 2, 1, 1. -/
theorem C8_analysis_invariants :
    (∀ results : List (String × ReportData),
      (analyze_performance_results results).total_runs = results.length ∧
      (analyze_performance_results results).total_runs =
        (analyze_performance_results results).successful_runs +
          (analyze_performance_results results).failed_runs) ∧
    (∀ (k : String) (d : ReportData) (rest : List (String × ReportData)),
      (reportFailedTests d = 0 →
        (analyze_performance_results ((k, d) :: rest)).successful_runs =
          (analyze_performance_results rest).successful_runs + 1 ∧
        (analyze_performance_results ((k, d) :: rest)).failed_runs =
          (analyze_performance_results rest).failed_runs) ∧
      (reportFailedTests d ≠ 0 →
        (analyze_performance_results ((k, d) :: rest)).successful_runs =
          (analyze_performance_results rest).successful_runs ∧
        (analyze_performance_results ((k, d) :: rest)).failed_runs =
          (analyze_performance_results rest).failed_runs + 1)) ∧
    ((analyze_performance_results
        [("python_3.11", dPass), ("python_3.9", dFail2)]).total_runs = 2 ∧
      (analyze_performance_results
        [("python_3.11", dPass), ("python_3.9", dFail2)]).successful_runs = 1 ∧
      (analyze_performance_results
        [("python_3.11", dPass), ("python_3.9", dFail2)]).failed_runs = 1) := by
  refine ⟨fun results => ⟨rfl, ?_⟩, fun k d rest => ⟨fun h => ?_, fun h => ?_⟩, by decide⟩
  · simpa [analyze_performance_results] using
      filter_length_partition (fun p => reportFailedTests p.2 == 0) results
  · constructor <;> simp [analyze_performance_results, List.filter_cons, h]
  · constructor <;> simp [analyze_performance_results, List.filter_cons, h]

/-- C8 witness: the classification step evaluated at a passing report and at
a failing report, each prepended to the empty mapping. -/
theorem C8_analysis_invariants_witness :
    (reportFailedTests dPass = 0 ∧
      ((analyze_performance_results [("python_3.11", dPass)]).successful_runs =
          (analyze_performance_results []).successful_runs + 1 ∧
        (analyze_performance_results [("python_3.11", dPass)]).failed_runs =
          (analyze_performance_results []).failed_runs)) ∧
    (reportFailedTests dFail2 ≠ 0 ∧
      ((analyze_performance_results [("python_3.9", dFail2)]).successful_runs =
          (analyze_performance_results []).successful_runs ∧
        (analyze_performance_results [("python_3.9", dFail2)]).failed_runs =
          (analyze_performance_results []).failed_runs + 1)) :=
  ⟨⟨by decide, (C8_analysis_invariants.2.1 "python_3.11" dPass []).1 (by decide)⟩,
   ⟨by decide, (C8_analysis_invariants.2.1 "python_3.9" dFail2 []).2 (by decide)⟩⟩

/-- C10: a loaded report without a `summary` key, or whose summary has no
`failed_tests` key, defaults its failed count to 0, so it is classified as
passed: it is rendered with the PASS status and counted in
`successful_runs`. -/
theorem C10_missing_defaults (d : ReportData)
    (h : d.summary = none ∨ ∃ s, d.summary = some s ∧ s.failed_tests = none) :
    reportFailedTests d = 0 ∧
    markdown_version_status d = "✅ PASS" ∧
    ∀ (k : String) (rest : List (String × ReportData)),
      (analyze_performance_results ((k, d) :: rest)).successful_runs =
        (analyze_performance_results rest).successful_runs + 1 := by
  have h0 : reportFailedTests d = 0 := by
    rcases h with h | ⟨s, hs, hf⟩
    · simp [reportFailedTests, h]
    · simp [reportFailedTests, hs, hf]
  refine ⟨h0, ?_, fun k rest => ?_⟩
  · simp [markdown_version_status, h0]
  · simp [analyze_performance_results, List.filter_cons, h0]

/-- C10 witness: the document with no `summary` key is classified PASS and
increments the passed count. -/
theorem C10_missing_defaults_witness :
    (dEmpty.summary = none ∨ ∃ s, dEmpty.summary = some s ∧ s.failed_tests = none) ∧
    reportFailedTests dEmpty = 0 ∧
    markdown_version_status dEmpty = "✅ PASS" ∧
    (analyze_performance_results [("python_x", dEmpty)]).successful_runs =
      (analyze_performance_results []).successful_runs + 1 :=
  ⟨Or.inl rfl, (C10_missing_defaults dEmpty (Or.inl rfl)).1,
   (C10_missing_defaults dEmpty (Or.inl rfl)).2.1,
   (C10_missing_defaults dEmpty (Or.inl rfl)).2.2 "python_x" []⟩
